import Mathlib

/-!
Shallow embedding of `src/main.py` (FastAPI anime-listing backend with
JSON-file storage). Stateful handlers are modelled as functions from an
explicit store state to a new state plus an `Except` result; external
collaborators (the bcrypt hasher, uuid generation, the clock) are passed
in as parameters.
-/

/-- User record persisted in `data/users.json` (dict built at
`register`, lines 115-120 of main.py). -/
structure UserRec where
  id : String
  username : String
  email : String
  password : String
deriving DecidableEq, Repr

/-- Post record persisted in `data/posts.json` (dict built at
`create_post`, lines 150-157 of main.py). -/
structure PostRec where
  id : String
  title : String
  embed_url : String
  description : Option String
  user_id : String
  created_at : String
deriving DecidableEq, Repr

/-- Request body of POST /register (pydantic model `UserCreate`). -/
structure UserCreate where
  username : String
  email : String
  password : String
deriving DecidableEq, Repr

/-- Public projection of a user (pydantic model `User`): no password field. -/
structure User where
  id : String
  username : String
  email : String
deriving DecidableEq, Repr

/-- Request body of POST /posts (pydantic model `PostCreate`): note it has
no owner / user_id field at all. -/
structure PostCreate where
  title : String
  embed_url : String
  description : Option String
deriving DecidableEq, Repr

/-- Content of one backing JSON file. `raw_empty` is a file that was
truncated by `open(path, "w")` with nothing written afterwards: its bytes
are empty, which is not valid JSON. `valid l` is a file holding the JSON
serialization of the list `l`. -/
inductive FileContent (α : Type) where
  | raw_empty : FileContent α
  | valid (data : List α) : FileContent α
deriving DecidableEq, Repr

/-- The two JSON store files (USERS_FILE and POSTS_FILE). -/
structure StoreState where
  usersFile : FileContent UserRec
  postsFile : FileContent PostRec
deriving DecidableEq, Repr

/-- Outcome of a request that does not return normally: either an
`HTTPException(status, detail, headers)` raised by the handler, or an
uncaught Python exception, which FastAPI surfaces as a 500 server error. -/
inductive RequestError where
  | http (status : Nat) (detail : String) (headers : List (String × String))
  | uncaught (exc : String)
deriving DecidableEq, Repr

/-- HTTP status the client sees: an `HTTPException` keeps its status, an
uncaught exception becomes a 500 Internal Server Error. -/
def RequestError.statusCode : RequestError → Nat
  | .http s _ _ => s
  | .uncaught _ => 500

/-- main.py lines 73-75: `json.load` on the opened file. On a truncated
(empty) file `json.load` raises `JSONDecodeError`, which no handler
catches. -/
def read_json {α : Type} (c : FileContent α) : Except RequestError (List α) :=
  match c with
  | .raw_empty => .error (.uncaught "json.decoder.JSONDecodeError: Expecting value")
  | .valid l => .ok l

/-- main.py lines 77-79: `open(file_path, "w")` truncates the file at once;
then `json.dump(data, indent=2, default=str)` is called without the file
object, so it raises `TypeError` and nothing is ever written. The result is
the new file content (truncated) together with the raised exception. -/
def write_json {α : Type} (_c : FileContent α) (_data : List α) :
    FileContent α × Except RequestError Unit :=
  (.raw_empty, .error (.uncaught "TypeError: dump() missing 1 required positional argument: fp"))

/-- main.py line 24. -/
def ACCESS_TOKEN_EXPIRE_MINUTES : Nat := 30

/-- JWT payload as used by this app: the `sub` claim (absent when the
payload was not produced by `create_access_token`) and the `exp` claim as a
unix timestamp in seconds. -/
structure TokenPayload where
  sub : Option String
  exp : Nat
deriving DecidableEq, Repr

/-- A serialized JWT: its payload plus the secret it was signed with
(the HMAC signature is determined by payload and secret, so checking the
signature against a verification secret is equality of secrets). -/
structure Token where
  payload : TokenPayload
  signedWith : String
deriving DecidableEq, Repr

/-- Errors of `jwt.decode`: bad or missing signature / malformed token,
or an expired `exp` claim. -/
inductive JwtError where
  | invalid
  | expired
deriving DecidableEq, Repr

/-- main.py lines 82-87: payload is the input data plus
`exp = now + 30 minutes`, signed with the server secret. Time is passed
explicitly in seconds. -/
def create_access_token (secret : String) (now : Nat) (sub : String) : Token :=
  { payload := { sub := some sub, exp := now + ACCESS_TOKEN_EXPIRE_MINUTES * 60 }
    signedWith := secret }

/-- Semantics of `jwt.decode(token, secret, algorithms=[ALGORITHM])`:
fails when the signature does not verify against `secret`, fails as
expired when `exp <= now`, otherwise yields the payload. -/
def jwtDecode (tok : Token) (secret : String) (now : Nat) :
    Except JwtError TokenPayload :=
  if tok.signedWith = secret then
    if tok.payload.exp ≤ now then .error .expired else .ok tok.payload
  else .error .invalid

/-- Body of the try block of `get_current_user`, main.py lines 90-101:
decode the bearer token (any `jwt.decode` failure propagates as the raised
JWT exception); on a missing `sub` claim raise
`HTTPException(401, "Invalid authentication credentials")`; look the
subject id up in USERS_FILE (a `JSONDecodeError` on a truncated file
propagates) and raise `HTTPException(401, "User not found")` when absent;
otherwise return the public `User` projection. -/
def get_current_user_try (secret : String) (now : Nat) (st : StoreState)
    (token : Token) : Except RequestError User :=
  match jwtDecode token secret now with
  | .error .invalid => .error (.uncaught "jwt.exceptions.InvalidTokenError")
  | .error .expired => .error (.uncaught "jwt.exceptions.ExpiredSignatureError")
  | .ok payload =>
    match payload.sub with
    | none => .error (.http 401 "Invalid authentication credentials" [])
    | some user_id =>
      match read_json st.usersFile with
      | .error e => .error e
      | .ok users =>
        match users.find? (fun u => u.id == user_id) with
        | none => .error (.http 401 "User not found" [])
        | some u => .ok { id := u.id, username := u.username, email := u.email }

/-- main.py lines 89-103 (`get_current_user`): the try block above followed
by `except jwt.JWTError:`. The module was imported with `import jwt`, which
resolves to PyJWT, and PyJWT has no attribute `JWTError` (that name belongs
to python-jose, whose module is `jose`). Python evaluates the except
clause expression whenever any exception propagates out of the try block —
the two `HTTPException`s raised inside it included — so the lookup
`jwt.JWTError` raises `AttributeError`, which replaces the original
exception and propagates uncaught: every rejection path surfaces as a 500.
On the success path the except clause is never evaluated. -/
def get_current_user (secret : String) (now : Nat) (st : StoreState)
    (token : Token) : Except RequestError User :=
  match get_current_user_try secret now st token with
  | .ok u => .ok u
  | .error _ => .error (.uncaught "AttributeError: module jwt has no attribute JWTError")

/-- main.py lines 106-129 (`register`): read USERS_FILE; reject with 400
when some stored user shares the username or the email; otherwise build the
new user dict (fresh uuid `newId`, bcrypt hash of the password), append it
and call `write_json`, whose raised exception propagates; on a successful
write return the public projection. -/
def register (hash : String → String) (newId : String) (st : StoreState)
    (user : UserCreate) : StoreState × Except RequestError User :=
  match read_json st.usersFile with
  | .error e => (st, .error e)
  | .ok users =>
    if users.any (fun u => u.username == user.username || u.email == user.email) then
      (st, .error (.http 400 "Username or email already registered" []))
    else
      let user_dict : UserRec :=
        { id := newId, username := user.username, email := user.email
          password := hash user.password }
      let wr := write_json st.usersFile (users ++ [user_dict])
      match wr.2 with
      | .error e => ({ st with usersFile := wr.1 }, .error e)
      | .ok _ =>
        ({ st with usersFile := wr.1 },
         .ok { id := user_dict.id, username := user_dict.username, email := user_dict.email })

/-- Body of a successful POST /token response. -/
structure LoginResp where
  access_token : Token
  token_type : String
deriving DecidableEq, Repr

/-- main.py lines 131-144 (`login`): look the form username up in
USERS_FILE; when the user is absent or bcrypt verification fails, raise
the one identical `HTTPException(401, "Incorrect username or password",
headers WWW-Authenticate: Bearer)`; otherwise issue a token bound to the
user id. The hasher verify function `vrfy` is a parameter. -/
def login (vrfy : String → String → Bool) (secret : String) (now : Nat)
    (st : StoreState) (username password : String) :
    Except RequestError LoginResp :=
  match read_json st.usersFile with
  | .error e => .error e
  | .ok users =>
    match users.find? (fun u => u.username == username) with
    | none =>
      .error (.http 401 "Incorrect username or password" [("WWW-Authenticate", "Bearer")])
    | some user =>
      if vrfy password user.password then
        .ok { access_token := create_access_token secret now user.id, token_type := "bearer" }
      else
        .error (.http 401 "Incorrect username or password" [("WWW-Authenticate", "Bearer")])

/-- main.py lines 150-157: the post dict persisted and returned by
`create_post`: fresh uuid, title / embed_url / description copied from the
request body, `user_id` set from the authenticated caller, server clock
timestamp. -/
def post_dict_of (newId : String) (created_at : String) (post : PostCreate)
    (current_user : User) : PostRec :=
  { id := newId, title := post.title, embed_url := post.embed_url
    description := post.description, user_id := current_user.id
    created_at := created_at }

/-- main.py lines 146-169 (`create_post`): read POSTS_FILE, append the new
post dict and call `write_json`, whose raised exception propagates; on a
successful write return the post. Authentication has already resolved
`current_user` via `get_current_user`. -/
def create_post (newId : String) (now : String) (st : StoreState)
    (post : PostCreate) (current_user : User) :
    StoreState × Except RequestError PostRec :=
  match read_json st.postsFile with
  | .error e => (st, .error e)
  | .ok posts =>
    let post_dict := post_dict_of newId now post current_user
    let wr := write_json st.postsFile (posts ++ [post_dict])
    match wr.2 with
    | .error e => ({ st with postsFile := wr.1 }, .error e)
    | .ok _ => ({ st with postsFile := wr.1 }, .ok post_dict)

/-- Python index normalization for a slice bound over a list of length `n`:
a negative bound counts from the end and is clamped below at 0, a
non-negative bound is clamped above at `n`. -/
def pyNormalize (n : Nat) (i : Int) : Nat :=
  if i < 0 then ((n : Int) + i).toNat else min i.toNat n

/-- Python slice `l[start:stop]`: the elements at the normalized index
range. Never raises, for any integer bounds. -/
def pySlice {α : Type} (l : List α) (start stop : Int) : List α :=
  let s := pyNormalize l.length start
  let e := pyNormalize l.length stop
  (l.drop s).take (e - s)

/-- main.py lines 171-187 (`get_posts`): read POSTS_FILE and return the
slice `posts[skip : skip + limit]` (defaults skip=0, limit=10). `skip` and
`limit` are declared `int`, so negative query values are accepted. -/
def get_posts (st : StoreState) (skip limit : Int) :
    Except RequestError (List PostRec) :=
  match read_json st.postsFile with
  | .error e => .error e
  | .ok posts => .ok (pySlice posts skip (skip + limit))

/-- Configuration the module-level code of main.py ends up with. -/
structure Config where
  SECRET_KEY : String
  DATA_DIR : String
deriving DecidableEq, Repr

/-- main.py lines 19-35 at import time: `SECRET_KEY = os.getenv("SECRET_KEY")`
followed by `if not SECRET_KEY: raise ValueError(...)` (both an unset
variable and an empty string are falsy); `DATA_DIR = "data"` is a hardcoded
constant, read from no configuration source. -/
def startup (env : String → Option String) : Except String Config :=
  match env "SECRET_KEY" with
  | none => .error "SECRET_KEY must be set in .env file"
  | some s =>
    if s = "" then .error "SECRET_KEY must be set in .env file"
    else .ok { SECRET_KEY := s, DATA_DIR := "data" }

/-! Concrete fixtures used by witnesses and counterexamples. -/

/-- A deterministic stand-in for one bcrypt hashing call. -/
def hash0 : String → String := fun p => "bcrypt-digest-of-" ++ p

/-- A deterministic stand-in for bcrypt verification matching `hash0`. -/
def vrfy0 : String → String → Bool := fun p d => d == hash0 p

/-- Fresh store as produced by `init_json_files` (both files hold `[]`). -/
def initState : StoreState := { usersFile := .valid [], postsFile := .valid [] }

/-- A store holding one registered user, bob. -/
def bobRec : UserRec :=
  { id := "id-bob", username := "bob", email := "b@x.com", password := hash0 "bobpw" }

/-- Store with bob registered and no posts. -/
def stBob : StoreState := { usersFile := .valid [bobRec], postsFile := .valid [] }

/-- The i-th of 15 distinct posts. -/
def mkPost (i : Nat) : PostRec :=
  { id := toString i, title := "t" ++ toString i, embed_url := "u", description := none
    user_id := "id-bob", created_at := "2024-01-01" }

/-- Fifteen posts in insertion order. -/
def posts15 : List PostRec := (List.range 15).map mkPost

/-- Store whose posts file holds the fifteen posts. -/
def st15 : StoreState := { usersFile := .valid [bobRec], postsFile := .valid posts15 }

/-- An environment providing only SECRET_KEY, no storage configuration. -/
def env0 : String → Option String :=
  fun k => if k = "SECRET_KEY" then some "topsecret" else none

/-- For non-negative bounds, the Python slice `l[s : s + t]` is the
sub-sequence of `l` at positions `[s, s + t)`: drop `s`, take `t`. -/
theorem pySlice_natCast {α : Type} (l : List α) (s t : Nat) :
    pySlice l (s : Int) ((s : Int) + (t : Int)) = (l.drop s).take t := by
  have h1 : (Int.toNat (s : Int)) = s := by omega
  have h2 : (Int.toNat ((s : Int) + (t : Int))) = s + t := by omega
  simp only [pySlice, pyNormalize]
  rw [if_neg (by omega : ¬((s : Int) < 0)),
      if_neg (by omega : ¬((s : Int) + (t : Int) < 0)), h1, h2]
  rcases Nat.le_total s l.length with hs | hs
  · rw [Nat.min_eq_left hs, List.take_eq_take]
    simp only [List.length_drop]
    omega
  · rw [Nat.min_eq_right hs, Nat.min_eq_right (by omega : l.length ≤ s + t),
        List.drop_length, List.drop_eq_nil_of_le hs]
    simp

/-- C4: the post record built by create_post carries
`user_id = current_user.id`, whatever the request body contains; and since
`PostCreate` has no owner field, any two bodies yield the same owner. -/
theorem c4_owner_is_caller (newId created_at : String)
    (body other_body : PostCreate) (u : User) :
    (post_dict_of newId created_at body u).user_id = u.id ∧
    (post_dict_of newId created_at body u).user_id =
      (post_dict_of newId created_at other_body u).user_id :=
  ⟨rfl, rfl⟩

/-- Decoding succeeds on a token signed with the verification secret
whose expiry has not passed. -/
theorem jwtDecode_ok (tok : Token) (secret : String) (now : Nat)
    (h1 : tok.signedWith = secret) (h2 : ¬ tok.payload.exp ≤ now) :
    jwtDecode tok secret now = .ok tok.payload := by
  unfold jwtDecode
  rw [if_pos h1, if_neg h2]

/-- C5: issuing a token for subject `s` (payload `sub = s`,
`exp = now + 30 minutes`) and immediately verifying it with the same
secret succeeds and resolves the original subject id `s`. -/
theorem c5_issue_verify_roundtrip (secret : String) (now : Nat) (s : String) :
    jwtDecode (create_access_token secret now s) secret now =
      .ok { sub := some s, exp := now + ACCESS_TOKEN_EXPIRE_MINUTES * 60 } ∧
    (create_access_token secret now s).payload.sub = some s := by
  constructor
  · rw [jwtDecode_ok (create_access_token secret now s) secret now rfl
      (by simp only [create_access_token, ACCESS_TOKEN_EXPIRE_MINUTES]; omega)]
    rfl
  · rfl

/-- C8: for non-negative skip and limit, listing posts returns exactly the
sub-sequence at positions `[skip, skip + limit)` of the stored posts in
insertion order. -/
theorem c8_pagination (st : StoreState) (posts : List PostRec) (skip limit : Nat)
    (h : read_json st.postsFile = .ok posts) :
    get_posts st (skip : Int) (limit : Int) = .ok ((posts.drop skip).take limit) := by
  simp only [get_posts, h]
  rw [pySlice_natCast]

/-- C8 witness: over fifteen stored posts, skip=10 limit=10 yields the
sub-sequence at positions `[10, 20)`, i.e. the remaining five posts. -/
theorem c8_pagination_witness :
    get_posts st15 (10 : Int) (10 : Int) = .ok ((posts15.drop 10).take 10) :=
  c8_pagination st15 posts15 10 10 rfl

/-- C10: the handler never rejects negative values: it returns the Python
slice for any integer skip and limit, and over fifteen posts skip=-1
limit=10 normalizes to `posts[14:9]`, the empty list. -/
theorem c10_negative_skip (st : StoreState) (posts : List PostRec)
    (h : read_json st.postsFile = .ok posts) (hlen : posts.length = 15) :
    (∀ skip limit : Int, get_posts st skip limit = .ok (pySlice posts skip (skip + limit))) ∧
    get_posts st (-1) 10 = .ok (pySlice posts 14 9) ∧
    get_posts st (-1) 10 = .ok [] := by
  refine ⟨fun skip limit => by simp only [get_posts, h], ?_, ?_⟩
  · simp only [get_posts, h, pySlice, pyNormalize, hlen]
    norm_num
  · simp only [get_posts, h, pySlice, pyNormalize, hlen]
    norm_num

/-- C10 witness: the concrete fifteen-post store. -/
theorem c10_negative_skip_witness :
    get_posts st15 (-1) 10 = .ok [] :=
  (c10_negative_skip st15 posts15 rfl (by decide)).2.2

/-- C2: whenever the users file is readable and the request passes the
duplicate check, register ends in the uncaught `TypeError` from
`write_json` (a 500 to the client) with the users file truncated to empty
bytes; likewise any authenticated create_post with a readable posts file
ends in the same `TypeError` with the posts file truncated. Previously
persisted records are erased. -/
theorem c2_write_json_truncates_then_raises (hash : String → String)
    (newId now : String) (st : StoreState) (u : UserCreate) (p : PostCreate)
    (cu : User) (users : List UserRec) (posts : List PostRec)
    (hu : read_json st.usersFile = .ok users)
    (hdup : users.any (fun x => x.username == u.username || x.email == u.email) = false)
    (hp : read_json st.postsFile = .ok posts) :
    ((register hash newId st u).2 =
        .error (.uncaught "TypeError: dump() missing 1 required positional argument: fp") ∧
      (register hash newId st u).1.usersFile = FileContent.raw_empty) ∧
    ((create_post newId now st p cu).2 =
        .error (.uncaught "TypeError: dump() missing 1 required positional argument: fp") ∧
      (create_post newId now st p cu).1.postsFile = FileContent.raw_empty) ∧
    (RequestError.uncaught "TypeError: dump() missing 1 required positional argument: fp").statusCode = 500 := by
  refine ⟨⟨?_, ?_⟩, ⟨?_, ?_⟩, rfl⟩ <;>
    simp [register, create_post, write_json, hu, hp, hdup]

/-- C2 witness: registering alice on a store holding bob, and creating a
post on the fifteen-post store. -/
theorem c2_witness :
    ((register hash0 "id-alice" stBob
        { username := "alice", email := "a@x.com", password := "pw123" }).2 =
        .error (.uncaught "TypeError: dump() missing 1 required positional argument: fp") ∧
      (register hash0 "id-alice" stBob
        { username := "alice", email := "a@x.com", password := "pw123" }).1.usersFile =
        FileContent.raw_empty) ∧
    ((create_post "id-post" "2024-01-02" stBob
        { title := "T", embed_url := "u", description := none }
        { id := "id-bob", username := "bob", email := "b@x.com" }).2 =
        .error (.uncaught "TypeError: dump() missing 1 required positional argument: fp") ∧
      (create_post "id-post" "2024-01-02" stBob
        { title := "T", embed_url := "u", description := none }
        { id := "id-bob", username := "bob", email := "b@x.com" }).1.postsFile =
        FileContent.raw_empty) ∧
    (RequestError.uncaught "TypeError: dump() missing 1 required positional argument: fp").statusCode = 500 :=
  c2_write_json_truncates_then_raises hash0 "id-alice" "2024-01-02" stBob
    { username := "alice", email := "a@x.com", password := "pw123" }
    { title := "T", embed_url := "u", description := none }
    { id := "id-bob", username := "bob", email := "b@x.com" }
    [bobRec] [] rfl (by decide) rfl

/-- C3: when some stored user already has the requested username or the
requested email, register rejects with the 400 duplicate-identity error and
returns the store unchanged, byte for byte. -/
theorem c3_duplicate_rejected_store_unchanged (hash : String → String)
    (newId : String) (st : StoreState) (u : UserCreate) (users : List UserRec)
    (hu : read_json st.usersFile = .ok users)
    (hdup : ∃ x ∈ users, x.username = u.username ∨ x.email = u.email) :
    register hash newId st u =
      (st, .error (.http 400 "Username or email already registered" [])) := by
  have h : users.any (fun x => x.username == u.username || x.email == u.email) = true := by
    rcases hdup with ⟨x, hx, hor⟩
    refine List.any_eq_true.mpr ⟨x, hx, ?_⟩
    rcases hor with h | h <;> simp [h]
  simp [register, hu, h]

/-- C3 witness: registering username bob again with a different email is
rejected and leaves the store exactly as it was. -/
theorem c3_witness :
    register hash0 "id-new" stBob
      { username := "bob", email := "different@x.com", password := "pw" } =
      (stBob, .error (.http 400 "Username or email already registered" [])) :=
  c3_duplicate_rejected_store_unchanged hash0 "id-new" stBob
    { username := "bob", email := "different@x.com", password := "pw" }
    [bobRec] rfl ⟨bobRec, List.mem_singleton_self _, Or.inl rfl⟩

/-- C7: a login with a username absent from the store and a login with a
stored username but a password failing verification produce the one
identical rejection: status 401, detail Incorrect username or password,
header WWW-Authenticate Bearer. -/
theorem c7_login_indistinguishable_failures (vrfy : String → String → Bool)
    (secret : String) (now : Nat) (st : StoreState) (users : List UserRec)
    (u1 pw1 u2 pw2 : String) (rec : UserRec)
    (hu : read_json st.usersFile = .ok users)
    (h1 : users.find? (fun u => u.username == u1) = none)
    (h2 : users.find? (fun u => u.username == u2) = some rec)
    (hv : vrfy pw2 rec.password = false) :
    login vrfy secret now st u1 pw1 =
      .error (.http 401 "Incorrect username or password" [("WWW-Authenticate", "Bearer")]) ∧
    login vrfy secret now st u2 pw2 = login vrfy secret now st u1 pw1 := by
  constructor
  · simp [login, hu, h1]
  · simp [login, hu, h1, h2, hv]

/-- C7 witness: unknown user alice versus bob with a wrong password. -/
theorem c7_witness :
    login vrfy0 "sec" 0 stBob "alice" "whatever" =
      .error (.http 401 "Incorrect username or password" [("WWW-Authenticate", "Bearer")]) ∧
    login vrfy0 "sec" 0 stBob "bob" "wrongpw" = login vrfy0 "sec" 0 stBob "alice" "whatever" :=
  c7_login_indistinguishable_failures vrfy0 "sec" 0 stBob [bobRec]
    "alice" "whatever" "bob" "wrongpw" bobRec rfl (by decide) (by decide) (by decide)

/-- C1: on a fresh store, a valid registration of alice does not persist
her: it truncates the users file and raises the `write_json` TypeError
(surfaced as a 500), and the subsequent login with her credentials then
fails with a `JSONDecodeError` on the emptied file instead of returning a
token — the claimed end-to-end scenario cannot complete. -/
theorem c1_register_never_persists :
    (register hash0 "uid-alice" initState
        { username := "alice", email := "a@x.com", password := "pw123" }).2 =
      .error (.uncaught "TypeError: dump() missing 1 required positional argument: fp") ∧
    (register hash0 "uid-alice" initState
        { username := "alice", email := "a@x.com", password := "pw123" }).1 =
      { usersFile := .raw_empty, postsFile := .valid [] } ∧
    login vrfy0 "sec" 0
      (register hash0 "uid-alice" initState
        { username := "alice", email := "a@x.com", password := "pw123" }).1
      "alice" "pw123" =
      .error (.uncaught "json.decoder.JSONDecodeError: Expecting value") := by
  exact ⟨rfl, rfl, rfl⟩

/-- A token signed with a secret other than the server's. -/
def tokWrongSecret : Token :=
  { payload := { sub := some "id-bob", exp := 10000 }, signedWith := "other" }

/-- A validly signed, unexpired token whose subject id is in no store. -/
def tokUnknownSub : Token :=
  { payload := { sub := some "ghost", exp := 10000 }, signedWith := "sec" }

/-- A correctly signed token whose expiry has already passed at time 10. -/
def tokExpired : Token :=
  { payload := { sub := some "id-bob", exp := 5 }, signedWith := "sec" }

/-- A correctly signed, unexpired token whose payload has no sub claim. -/
def tokNoSub : Token :=
  { payload := { sub := none, exp := 10000 }, signedWith := "sec" }

/-- A correctly signed, unexpired token for the stored user bob. -/
def tokBob : Token :=
  { payload := { sub := some "id-bob", exp := 10000 }, signedWith := "sec" }

/-- C6: on bob's store, every auth-gate rejection kind the handler can
reach — wrongly-signed token, expired token, payload without a sub claim,
subject id not in the store — escalates to the uncaught AttributeError
raised by evaluating the `except jwt.JWTError:` clause, surfacing as a 500
server error rather than the 401 the claim requires; only the success path,
which never evaluates the except clause, is unaffected. -/
theorem c6_rejections_surface_as_500 :
    get_current_user "sec" 10 stBob tokWrongSecret =
      .error (.uncaught "AttributeError: module jwt has no attribute JWTError") ∧
    get_current_user "sec" 10 stBob tokExpired =
      .error (.uncaught "AttributeError: module jwt has no attribute JWTError") ∧
    get_current_user "sec" 10 stBob tokNoSub =
      .error (.uncaught "AttributeError: module jwt has no attribute JWTError") ∧
    get_current_user "sec" 10 stBob tokUnknownSub =
      .error (.uncaught "AttributeError: module jwt has no attribute JWTError") ∧
    (RequestError.uncaught "AttributeError: module jwt has no attribute JWTError").statusCode = 500 ∧
    get_current_user "sec" 10 stBob tokBob =
      .ok { id := "id-bob", username := "bob", email := "b@x.com" } := by
  exact ⟨rfl, rfl, rfl, rfl, rfl, rfl⟩

/-- C9 counterexample: under an environment that sets SECRET_KEY and
nothing else — no storage location or connection string of any name — the
process starts successfully, with the storage directory silently fixed to
the hardcoded constant data. -/
theorem c9_cex_starts_without_storage_config :
    startup env0 = .ok { SECRET_KEY := "topsecret", DATA_DIR := "data" } ∧
    env0 "DATA_DIR" = none ∧ env0 "DATABASE_URL" = none ∧ env0 "DB_PATH" = none := by
  exact ⟨rfl, by decide, by decide, by decide⟩

/-- C9 amended: startup fails fast exactly when SECRET_KEY is unset or
empty; when it is set and nonempty the process starts, and the storage
location is always the hardcoded constant data, taken from no
configuration input. -/
theorem c9_amended_only_secret_checked (env : String → Option String) :
    ((env "SECRET_KEY" = none ∨ env "SECRET_KEY" = some "") →
      startup env = .error "SECRET_KEY must be set in .env file") ∧
    (∀ s : String, env "SECRET_KEY" = some s → s ≠ "" →
      startup env = .ok { SECRET_KEY := s, DATA_DIR := "data" }) := by
  constructor
  · rintro (h | h) <;> simp [startup, h]
  · intro s hs hne
    simp [startup, hs, hne]

/-- C9 amended witness: the SECRET_KEY-only environment starts. -/
theorem c9_amended_witness :
    startup env0 = .ok { SECRET_KEY := "topsecret", DATA_DIR := "data" } :=
  (c9_amended_only_secret_checked env0).2 "topsecret" (by decide) (by decide)
